import Mathlib

/-!
Verification of the MCP tool-server lifecycle and invocation layer of
llm-chat-app (backend/mcp_server_manager.py, backend/mcp_client_fastmcp.py,
backend/mcp_client.py), via a shallow embedding of the Python code.

Python runtime values that flow through the layer (JSON-RPC payloads, tool
schemas, tool-call results) are modelled by the inductive type `Json`;
Python `dict`s used as object state (tool catalogs, the registry map) are
modelled as insertion-ordered association lists, with insertion semantics
matching CPython dicts (assignment to an existing key replaces the value in
place and keeps the original key and position; a new key is appended).
-/

/-- A Python value as it appears in this layer: `None`, booleans, integers,
strings, lists and string-keyed dicts (JSON-RPC payloads are parsed JSON /
YAML documents, whose keys are strings). -/
inductive Json where
  | null : Json
  | bool : Bool → Json
  | num : Int → Json
  | str : String → Json
  | arr : List Json → Json
  | obj : List (String × Json) → Json

mutual
/-- Structural decidable equality for `Json` (spelled out because `deriving`
does not handle the nested `List` occurrences). -/
def Json.decEq : (a b : Json) → Decidable (a = b)
  | Json.null, Json.null => isTrue rfl
  | Json.bool a, Json.bool b =>
    if h : a = b then isTrue (by rw [h])
    else isFalse (by intro hh; injection hh; contradiction)
  | Json.num a, Json.num b =>
    if h : a = b then isTrue (by rw [h])
    else isFalse (by intro hh; injection hh; contradiction)
  | Json.str a, Json.str b =>
    if h : a = b then isTrue (by rw [h])
    else isFalse (by intro hh; injection hh; contradiction)
  | Json.arr l, Json.arr m =>
    match Json.decEqList l m with
    | isTrue h => isTrue (by rw [h])
    | isFalse h => isFalse (by intro hh; injection hh; exact h (by assumption))
  | Json.obj l, Json.obj m =>
    match Json.decEqObj l m with
    | isTrue h => isTrue (by rw [h])
    | isFalse h => isFalse (by intro hh; injection hh; exact h (by assumption))
  | Json.null, Json.bool _ => isFalse fun h => by cases h
  | Json.null, Json.num _ => isFalse fun h => by cases h
  | Json.null, Json.str _ => isFalse fun h => by cases h
  | Json.null, Json.arr _ => isFalse fun h => by cases h
  | Json.null, Json.obj _ => isFalse fun h => by cases h
  | Json.bool _, Json.null => isFalse fun h => by cases h
  | Json.bool _, Json.num _ => isFalse fun h => by cases h
  | Json.bool _, Json.str _ => isFalse fun h => by cases h
  | Json.bool _, Json.arr _ => isFalse fun h => by cases h
  | Json.bool _, Json.obj _ => isFalse fun h => by cases h
  | Json.num _, Json.null => isFalse fun h => by cases h
  | Json.num _, Json.bool _ => isFalse fun h => by cases h
  | Json.num _, Json.str _ => isFalse fun h => by cases h
  | Json.num _, Json.arr _ => isFalse fun h => by cases h
  | Json.num _, Json.obj _ => isFalse fun h => by cases h
  | Json.str _, Json.null => isFalse fun h => by cases h
  | Json.str _, Json.bool _ => isFalse fun h => by cases h
  | Json.str _, Json.num _ => isFalse fun h => by cases h
  | Json.str _, Json.arr _ => isFalse fun h => by cases h
  | Json.str _, Json.obj _ => isFalse fun h => by cases h
  | Json.arr _, Json.null => isFalse fun h => by cases h
  | Json.arr _, Json.bool _ => isFalse fun h => by cases h
  | Json.arr _, Json.num _ => isFalse fun h => by cases h
  | Json.arr _, Json.str _ => isFalse fun h => by cases h
  | Json.arr _, Json.obj _ => isFalse fun h => by cases h
  | Json.obj _, Json.null => isFalse fun h => by cases h
  | Json.obj _, Json.bool _ => isFalse fun h => by cases h
  | Json.obj _, Json.num _ => isFalse fun h => by cases h
  | Json.obj _, Json.str _ => isFalse fun h => by cases h
  | Json.obj _, Json.arr _ => isFalse fun h => by cases h

/-- Decidable equality on lists of `Json`. -/
def Json.decEqList : (l m : List Json) → Decidable (l = m)
  | [], [] => isTrue rfl
  | [], _ :: _ => isFalse fun h => by cases h
  | _ :: _, [] => isFalse fun h => by cases h
  | a :: l, b :: m =>
    match Json.decEq a b with
    | isFalse h => isFalse (by intro hh; injection hh; exact h (by assumption))
    | isTrue h1 =>
      match Json.decEqList l m with
      | isTrue h2 => isTrue (by rw [h1, h2])
      | isFalse h =>
        isFalse (by intro hh; injection hh; exact h (by assumption))

/-- Decidable equality on lists of string-keyed `Json` bindings. -/
def Json.decEqObj :
    (l m : List (String × Json)) → Decidable (l = m)
  | [], [] => isTrue rfl
  | [], _ :: _ => isFalse fun h => by cases h
  | _ :: _, [] => isFalse fun h => by cases h
  | (k1, v1) :: l, (k2, v2) :: m =>
    if hk : k1 = k2 then
      match Json.decEq v1 v2 with
      | isFalse h =>
        isFalse
          (by intro hh; injection hh with h1 _; injection h1; contradiction)
      | isTrue hv =>
        match Json.decEqObj l m with
        | isTrue h2 => isTrue (by rw [hk, hv, h2])
        | isFalse h =>
          isFalse (by intro hh; injection hh; contradiction)
    else
      isFalse (by intro hh; injection hh with h1 _; injection h1; contradiction)
end

instance : DecidableEq Json := Json.decEq

/-- First binding of a string key in an association list (Python dict lookup
for string keys, and `dict.get` without default). -/
def lookupStr {α : Type} : List (String × α) → String → Option α
  | [], _ => none
  | (k, v) :: d, key => if k = key then some v else lookupStr d key

/-- Python `dict.get(key, default)` on a string-keyed dict. -/
def getD (kvs : List (String × Json)) (key : String) (dflt : Json) : Json :=
  (lookupStr kvs key).getD dflt

/-- Python truthiness of a value (`bool(v)`). -/
def pyTruthy : Json → Bool
  | Json.null => false
  | Json.bool b => b
  | Json.num n => n != 0
  | Json.str s => s != ""
  | Json.arr l => !l.isEmpty
  | Json.obj kvs => !kvs.isEmpty

/-- Whether a value may be used as a dict key (Python hashability: lists and
dicts are unhashable, using one as a key raises `TypeError`). -/
def pyHashable : Json → Bool
  | Json.arr _ => false
  | Json.obj _ => false
  | _ => true

/-- Python `type(v).__name__`, used in runtime error messages. -/
def pyTypeName : Json → String
  | Json.null => "NoneType"
  | Json.bool _ => "bool"
  | Json.num _ => "int"
  | Json.str _ => "str"
  | Json.arr _ => "list"
  | Json.obj _ => "dict"

mutual
/-- Python `==` on the modelled values: `True == 1`, `False == 0` (bools are
ints), lists compare elementwise, dicts compare as key→value mappings.  For
dicts (whose keys are unique in any value reachable from parsed data) mapping
equality is: every pair of the left occurs in the right, and both have the
same number of keys. -/
def pyEq : Json → Json → Bool
  | Json.null, Json.null => true
  | Json.bool a, Json.bool b => a == b
  | Json.bool a, Json.num n => (if a then (1 : Int) else 0) == n
  | Json.num n, Json.bool b => n == (if b then (1 : Int) else 0)
  | Json.num n, Json.num m => n == m
  | Json.str s, Json.str t => s == t
  | Json.arr l, Json.arr m => pyEqList l m
  | Json.obj l, Json.obj m => pyEqObjLe l m && l.length == m.length
  | _, _ => false

/-- Elementwise Python `==` on two lists. -/
def pyEqList : List Json → List Json → Bool
  | [], [] => true
  | a :: l, b :: m => pyEq a b && pyEqList l m
  | _, _ => false

/-- Every binding of the first dict occurs (with `==`-equal value) in the
second. -/
def pyEqObjLe : List (String × Json) → List (String × Json) → Bool
  | [], _ => true
  | (k, v) :: l, m =>
    (match lookupStr m k with
     | some w => pyEq v w
     | none => false) && pyEqObjLe l m
end

mutual
/-- Python `repr(v)` for the modelled values (as used by `str()` on
containers): `None`/`True`/`False`, decimal integers, single-quoted strings,
`[...]` lists and `{...}` dicts. -/
def pyRepr : Json → String
  | Json.null => "None"
  | Json.bool true => "True"
  | Json.bool false => "False"
  | Json.num n => toString n
  | Json.str s => "\x27" ++ s ++ "\x27"
  | Json.arr l => "[" ++ pyReprList l ++ "]"
  | Json.obj kvs => "\x7b" ++ pyReprObj kvs ++ "\x7d"

/-- Comma-joined reprs of list elements. -/
def pyReprList : List Json → String
  | [] => ""
  | [a] => pyRepr a
  | a :: l => pyRepr a ++ ", " ++ pyReprList l

/-- Comma-joined `'key': value` reprs of dict items. -/
def pyReprObj : List (String × Json) → String
  | [] => ""
  | [(k, v)] => "\x27" ++ k ++ "\x27: " ++ pyRepr v
  | (k, v) :: l => "\x27" ++ k ++ "\x27: " ++ pyRepr v ++ ", " ++ pyReprObj l
end

/-- Python `str(v)`: the raw string for strings, `repr` rendering otherwise
(f-string interpolation `f"{v}"` uses this). -/
def pyStr : Json → String
  | Json.str s => s
  | j => pyRepr j

/-- Tool record of mcp_client_fastmcp.py (`class Tool`): the fields hold
whatever values the discovery response supplied (Python does not enforce the
annotations, so each field is a `Json` value). -/
structure Tool where
  name : Json
  description : Json
  input_schema : Json
deriving DecidableEq

/-- Resource record of mcp_client_fastmcp.py (`class Resource`). -/
structure Resource where
  uri : Json
  name : Json
  mime_type : Json
deriving DecidableEq

/-- Python dict assignment `d[k] = v` for dicts with arbitrary (hashable)
keys, using Python `==` on keys: an existing equal key keeps its original key
object and position and gets the new value; otherwise the binding is appended.
-/
def insertPy {α : Type} : List (Json × α) → Json → α → List (Json × α)
  | [], k, v => [(k, v)]
  | (k2, v2) :: d, k, v =>
    if pyEq k k2 then (k2, v) :: d else (k2, v2) :: insertPy d k v

/-- Python `key in d` for a dict with arbitrary keys. -/
def memPy {α : Type} (d : List (Json × α)) (k : Json) : Bool :=
  d.any fun kv => pyEq k kv.1

/-- Python dict assignment for string-keyed dicts (the Registry's maps, whose
keys are the configured server names). -/
def insertStr {α : Type} : List (String × α) → String → α → List (String × α)
  | [], k, v => [(k, v)]
  | (k2, v2) :: d, k, v =>
    if k = k2 then (k2, v) :: d else (k2, v2) :: insertStr d k v

/-- Python `del d[k]` on a string-keyed dict (dict keys are unique, so
removing every binding of `k` is the same as removing its one binding). -/
def eraseStr {α : Type} (d : List (String × α)) (k : String) : List (String × α) :=
  d.filter fun kv => kv.1 ≠ k

/-- The keys of a string-keyed dict, in order. -/
def keysStr {α : Type} (d : List (String × α)) : List String :=
  d.map Prod.fst

/-- State of a `FastMCPClient` (mcp_client_fastmcp.py).  `client` and
`process` model whether `self.client` / `self.process` are set (`None` or
not); the catalogs are the `self.tools` / `self.resources` dicts. -/
structure FastMCPClient where
  server_name : String
  server_command : List String
  client : Option Unit
  process : Option Unit
  tools : List (Json × Tool)
  resources : List (Json × Resource)
  connected : Bool
deriving DecidableEq

/-- `FastMCPClient.__init__`. -/
def FastMCPClient.init (server_name : String) (server_command : List String) :
    FastMCPClient :=
  { server_name := server_name, server_command := server_command,
    client := none, process := none, tools := [], resources := [],
    connected := false }

/-- The `filesystem_read` entry of the fixed fallback catalog of
`FastMCPClient._initialize_mock_tools`. -/
def mockFilesystemRead : Tool :=
  { name := Json.str "filesystem_read",
      description := Json.str "Read content from a file",
      input_schema := Json.obj
        [ ("type", Json.str "object"),
          ("properties", Json.obj
            [ ("path", Json.obj
                [ ("type", Json.str "string"),
                  ("description", Json.str "Path to the file") ]) ]),
          ("required", Json.arr [Json.str "path"]) ] }

/-- The `filesystem_write` fallback tool. -/
def mockFilesystemWrite : Tool :=
  { name := Json.str "filesystem_write",
      description := Json.str "Write content to a file",
      input_schema := Json.obj
        [ ("type", Json.str "object"),
          ("properties", Json.obj
            [ ("path", Json.obj
                [ ("type", Json.str "string"),
                  ("description", Json.str "Path to the file") ]),
              ("content", Json.obj
                [ ("type", Json.str "string"),
                  ("description", Json.str "Content to write") ]) ]),
          ("required", Json.arr [Json.str "path", Json.str "content"]) ] }

/-- The `web_search` fallback tool. -/
def mockWebSearch : Tool :=
  { name := Json.str "web_search",
      description := Json.str "Search the web for information",
      input_schema := Json.obj
        [ ("type", Json.str "object"),
          ("properties", Json.obj
            [ ("query", Json.obj
                [ ("type", Json.str "string"),
                  ("description", Json.str "Search query") ]),
              ("max_results", Json.obj
                [ ("type", Json.str "integer"),
                  ("description", Json.str "Max results"),
                  ("default", Json.num 5) ]) ]),
          ("required", Json.arr [Json.str "query"]) ] }

/-- The `time_now` fallback tool. -/
def mockTimeNow : Tool :=
  { name := Json.str "time_now",
      description := Json.str "Get current date and time",
      input_schema := Json.obj
        [ ("type", Json.str "object"),
          ("properties", Json.obj []),
          ("required", Json.arr []) ] }

/-- The fixed fallback catalog of `FastMCPClient._initialize_mock_tools`,
in source order. -/
def mockTools : List Tool :=
  [mockFilesystemRead, mockFilesystemWrite, mockWebSearch, mockTimeNow]

/-- `FastMCPClient._initialize_mock_tools`: inserts the fixed fallback tools
into the (possibly non-empty) `self.tools` dict. -/
def addMockTools (tools : List (Json × Tool)) : List (Json × Tool) :=
  mockTools.foldl (fun d t => insertPy d t.name t) tools

/-- Python iteration `for x in v`: lists yield their elements, dicts their
keys, strings their characters; other values are not iterable (`TypeError`,
modelled as `none`). -/
def pyIterate : Json → Option (List Json)
  | Json.arr l => some l
  | Json.obj kvs => some (kvs.map fun kv => Json.str kv.1)
  | Json.str s => some (s.data.map fun c => Json.str c.toString)
  | _ => none

/-- The sequence of items `_load_capabilities` iterates over for tools:
`tools = tools_response["tools"]` when the response is a dict with a
`"tools"` key, else `tools = tools_response or []`; `none` when the
subsequent `for` raises on a non-iterable. -/
def toolsSource (resp : Json) : Option (List Json) :=
  match resp with
  | Json.obj kvs =>
    match lookupStr kvs "tools" with
    | some v => pyIterate v
    | none => if pyTruthy resp then pyIterate resp else some []
  | _ => if pyTruthy resp then pyIterate resp else some []

/-- Same extraction for the resources response (`"resources"` key). -/
def resourcesSource (resp : Json) : Option (List Json) :=
  match resp with
  | Json.obj kvs =>
    match lookupStr kvs "resources" with
    | some v => pyIterate v
    | none => if pyTruthy resp then pyIterate resp else some []
  | _ => if pyTruthy resp then pyIterate resp else some []

/-- The `Tool` built from one dict item of the tools list
(`tool_data.get(...)` with the source's defaults). -/
def mkTool (kvs : List (String × Json)) : Tool :=
  { name := getD kvs "name" (Json.str ""),
    description := getD kvs "description" (Json.str ""),
    input_schema := getD kvs "inputSchema" (Json.obj []) }

/-- The `Resource` built from one dict item of the resources list. -/
def mkResource (kvs : List (String × Json)) : Resource :=
  { uri := getD kvs "uri" (Json.str ""),
    name := getD kvs "name" (getD kvs "uri" (Json.str "")),
    mime_type := getD kvs "mimeType" Json.null }

/-- The tools loop of `_load_capabilities`: non-dict items are skipped; a
dict item is turned into a `Tool` and stored under its `name`; a `Tool`
whose name is unhashable raises at `self.tools[tool.name] = tool`, leaving
the dict as mutated so far (second component `true` means raised). -/
def loadToolsLoop : List (Json × Tool) → List Json → List (Json × Tool) × Bool
  | d, [] => (d, false)
  | d, item :: rest =>
    match item with
    | Json.obj kvs =>
      let t := mkTool kvs
      if pyHashable t.name then loadToolsLoop (insertPy d t.name t) rest
      else (d, true)
    | _ => loadToolsLoop d rest

/-- The resources loop of `_load_capabilities` (keyed by `resource.uri`). -/
def loadResourcesLoop :
    List (Json × Resource) → List Json → List (Json × Resource) × Bool
  | d, [] => (d, false)
  | d, item :: rest =>
    match item with
    | Json.obj kvs =>
      let r := mkResource kvs
      if pyHashable r.uri then loadResourcesLoop (insertPy d r.uri r) rest
      else (d, true)
    | _ => loadResourcesLoop d rest

/-- Tool side of `_load_capabilities` applied to `self.tools`; `true` means
an exception was raised (re-raised by `_load_capabilities`). -/
def loadToolsInto (d : List (Json × Tool)) (resp : Json) :
    List (Json × Tool) × Bool :=
  match toolsSource resp with
  | none => (d, true)
  | some items => loadToolsLoop d items

/-- Resource side of `_load_capabilities` applied to `self.resources`. -/
def loadResourcesInto (d : List (Json × Resource)) (resp : Json) :
    List (Json × Resource) × Bool :=
  match resourcesSource resp with
  | none => (d, true)
  | some items => loadResourcesLoop d items

/-- Outcome of the environment during `FastMCPClient.connect()`:
`spawnFail` — `asyncio.create_subprocess_exec` raises (no process, and
`self.client` is never assigned); `connectFail` — the process spawns but the
transport construction / `client.connect` raises (after `self.client` was
assigned); `responses` — the handshake succeeds and the server answers
`list_tools()` / `list_resources()` with the given values. -/
inductive ConnectEnv where
  | spawnFail : ConnectEnv
  | connectFail : ConnectEnv
  | responses : Json → Json → ConnectEnv

/-- The `except` branch of `connect()`: `_cleanup()` terminates and clears
the process, `_initialize_mock_tools()` adds the fallback catalog, and the
client is (still) marked connected before returning `False`. -/
def FastMCPClient.failPath (c : FastMCPClient) (clientSet : Bool) :
    FastMCPClient :=
  { c with process := none,
           client := if clientSet then some () else none,
           tools := addMockTools c.tools,
           connected := true }

/-- `FastMCPClient.connect()`: spawn the process, build the FastMCP client
and transport, load capabilities, set `self.connected = True` and return
`True`; any exception runs the `except` branch (`failPath`) and returns
`False`.  A partially filled tool dict (when the tools loop raised midway)
is kept, with the mock tools inserted on top of it. -/
def FastMCPClient.connect (c : FastMCPClient) (env : ConnectEnv) :
    FastMCPClient × Bool :=
  match env with
  | ConnectEnv.spawnFail => (c.failPath false, false)
  | ConnectEnv.connectFail => (c.failPath true, false)
  | ConnectEnv.responses toolsResp resourcesResp =>
    let loadedT := loadToolsInto c.tools toolsResp
    if loadedT.2 then ({ c with tools := loadedT.1 }.failPath true, false)
    else
      let loadedR := loadResourcesInto c.resources resourcesResp
      if loadedR.2 then
        ({ c with tools := loadedT.1, resources := loadedR.1 }.failPath true,
         false)
      else
        ({ c with process := some (), client := some (),
                  tools := loadedT.1, resources := loadedR.1,
                  connected := true }, true)

/-- Outcome of the one `await self.client.close()` call inside
`disconnect()`: either it returns, or it raises. -/
inductive CloseOutcome where
  | ok : CloseOutcome
  | raises : CloseOutcome

/-- `FastMCPClient.disconnect()`: `await self.client.close()` when a client
is set, then `_cleanup()`, which terminates the process and (in its own
`finally`) clears `self.process`.  The `except` swallows any exception, but
a raising `close()` skips `_cleanup()`, so `self.process` stays set on that
path; the `finally` block always clears `self.connected` and `self.client`.
The tool/resource dicts are never touched. -/
def FastMCPClient.disconnect (c : FastMCPClient) (close : CloseOutcome) :
    FastMCPClient :=
  match c.client, close with
  | some _, CloseOutcome.raises =>
    { c with connected := false, client := none }
  | _, _ =>
    { c with connected := false, client := none, process := none }

/-- `FastMCPClient.get_available_tools()`: `list(self.tools.values())`. -/
def FastMCPClient.get_available_tools (c : FastMCPClient) : List Tool :=
  c.tools.map Prod.snd

/-- `FastMCPClient.get_available_resources()`. -/
def FastMCPClient.get_available_resources (c : FastMCPClient) :
    List Resource :=
  c.resources.map Prod.snd

/-- `FastMCPClient.is_connected`. -/
def FastMCPClient.is_connected (c : FastMCPClient) : Bool :=
  c.connected

/-- Python `v.get(key, default)`: defined for dicts; on any other value the
attribute access raises `AttributeError` (modelled as `Except.error` with the
interpreter's message). -/
def pyGet (v : Json) (key : String) (dflt : Json) : Except String Json :=
  match v with
  | Json.obj kvs => Except.ok (getD kvs key dflt)
  | other =>
    Except.error
      ("\x27" ++ pyTypeName other ++ "\x27 object has no attribute \x27get\x27")

/-- Python `len(v)` for sized values; `none` models the `TypeError` raised on
unsized values. -/
def pyLen : Json → Option Nat
  | Json.str s => some s.length
  | Json.arr l => some l.length
  | Json.obj kvs => some kvs.length
  | _ => none

mutual
/-- `json.dumps(v)` with default separators. -/
def jsonDumps : Json → String
  | Json.null => "null"
  | Json.bool true => "true"
  | Json.bool false => "false"
  | Json.num n => toString n
  | Json.str s => "\x22" ++ s ++ "\x22"
  | Json.arr l => "[" ++ jsonDumpsList l ++ "]"
  | Json.obj kvs => "\x7b" ++ jsonDumpsObj kvs ++ "\x7d"

/-- Comma-joined dumps of list elements. -/
def jsonDumpsList : List Json → String
  | [] => ""
  | [a] => jsonDumps a
  | a :: l => jsonDumps a ++ ", " ++ jsonDumpsList l

/-- Comma-joined dumps of dict items. -/
def jsonDumpsObj : List (String × Json) → String
  | [] => ""
  | [(k, v)] => "\x22" ++ k ++ "\x22: " ++ jsonDumps v
  | (k, v) :: l => "\x22" ++ k ++ "\x22: " ++ jsonDumps v ++ ", " ++ jsonDumpsObj l
end

/-- `FastMCPClient._call_tool_fallback`, used when `self.client` is `None`.
`now` stands for `datetime.now().isoformat()`.  An `AttributeError` /
`TypeError` from `arguments.get` or `len` propagates to `call_tool`'s
`except` handler (`Except.error`). -/
def callToolFallback (tool_name : String) (arguments : Json) (now : String) :
    Except String String :=
  if tool_name = "filesystem_read" then
    (pyGet arguments "path" (Json.str "")).map fun path =>
      "Mock: Reading file \x27" ++ pyStr path ++ "\x27"
  else if tool_name = "filesystem_write" then
    match pyGet arguments "path" (Json.str "") with
    | Except.error e => Except.error e
    | Except.ok path =>
      match pyGet arguments "content" (Json.str "") with
      | Except.error e => Except.error e
      | Except.ok content =>
        match pyLen content with
        | none =>
          Except.error
            ("object of type \x27" ++ pyTypeName content ++ "\x27 has no len()")
        | some n =>
          Except.ok ("Mock: Writing " ++ toString n ++ " characters to \x27" ++
            pyStr path ++ "\x27")
  else if tool_name = "web_search" then
    match pyGet arguments "query" (Json.str "") with
    | Except.error e => Except.error e
    | Except.ok query =>
      match pyGet arguments "max_results" (Json.num 5) with
      | Except.error e => Except.error e
      | Except.ok maxResults =>
        Except.ok ("Mock: Searching for \x27" ++ pyStr query ++ "\x27 (max " ++
          pyStr maxResults ++ " results)")
  else if tool_name = "time_now" then
    Except.ok ("Current time: " ++ now)
  else
    Except.ok ("Mock result for tool \x27" ++ tool_name ++
      "\x27 with arguments: " ++ jsonDumps arguments)

/-- Outcome of the one `await self.client.call_tool(...)` round-trip:
either the value FastMCP returned, or an exception with message `msg`. -/
inductive CallOutcome where
  | ok : Json → CallOutcome
  | exn : String → CallOutcome

/-- Result handling of `FastMCPClient.call_tool` once FastMCP returned
`result`: a dict with a non-empty `"content"` list yields the first item's
`"text"` (default `str(result)`; a first item that is not a dict raises and
is caught by the `except` handler); a dict with `"result"` but no
`"content"` yields `str(result["result"])`; any other dict `str(result)`;
a string is returned as is; anything else `str(result)`. -/
def handleCallResult (tool_name : String) (result : Json) : Json :=
  match result with
  | Json.obj kvs =>
    match lookupStr kvs "content" with
    | some content =>
      match content with
      | Json.arr (first :: _) =>
        match first with
        | Json.obj fkvs => getD fkvs "text" (Json.str (pyStr result))
        | other =>
          Json.str ("Error calling tool \x27" ++ tool_name ++ "\x27: \x27" ++
            pyTypeName other ++ "\x27 object has no attribute \x27get\x27")
      | _ => Json.str (pyStr result)
    | none =>
      match lookupStr kvs "result" with
      | some r => Json.str (pyStr r)
      | none => Json.str (pyStr result)
  | Json.str s => Json.str s
  | other => Json.str (pyStr other)

/-- `FastMCPClient.call_tool(tool_name, arguments)`: a name missing from the
catalog is rejected with a descriptive string; with a live FastMCP client
the result of the round-trip is post-processed by `handleCallResult` and any
exception becomes an error string; with no client the mock fallback runs.
The Python return annotation is `str` but unenforced, so the model returns a
`Json` value. -/
def FastMCPClient.call_tool (c : FastMCPClient) (tool_name : String)
    (arguments : Json) (outcome : CallOutcome) (now : String) : Json :=
  if !(memPy c.tools (Json.str tool_name)) then
    Json.str ("Tool \x27" ++ tool_name ++ "\x27 not found in server \x27" ++
      c.server_name ++ "\x27")
  else
    match c.client with
    | some _ =>
      match outcome with
      | CallOutcome.ok result => handleCallResult tool_name result
      | CallOutcome.exn msg =>
        Json.str ("Error calling tool \x27" ++ tool_name ++ "\x27: " ++ msg)
    | none =>
      match callToolFallback tool_name arguments now with
      | Except.ok s => Json.str s
      | Except.error e =>
        Json.str ("Error calling tool \x27" ++ tool_name ++ "\x27: " ++ e)

/-- Whether `needle` occurs as a prefix of `hay` (character lists). -/
def listHasPre : List Char → List Char → Bool
  | [], _ => true
  | _ :: _, [] => false
  | a :: n, b :: h => a == b && listHasPre n h

/-- Whether `needle` occurs as a contiguous substring of `hay`. -/
def listHasSub (needle : List Char) : List Char → Bool
  | [] => listHasPre needle []
  | b :: h => listHasPre needle (b :: h) || listHasSub needle h

/-- Python `key in v` for a string `key`: key test on dicts, membership on
lists, substring test on strings; `TypeError` otherwise. -/
def pyInStrKey (v : Json) (key : String) : Except String Bool :=
  match v with
  | Json.obj kvs => Except.ok (lookupStr kvs key).isSome
  | Json.arr l => Except.ok (l.any fun e => pyEq (Json.str key) e)
  | Json.str s => Except.ok (listHasSub key.data s.data)
  | other =>
    Except.error
      ("argument of type \x27" ++ pyTypeName other ++ "\x27 is not iterable")

/-- Python `v[key]` for a string `key` (subscript). -/
def pyIndexStr (v : Json) (key : String) : Except String Json :=
  match v with
  | Json.obj kvs =>
    match lookupStr kvs key with
    | some w => Except.ok w
    | none => Except.error ("\x27" ++ key ++ "\x27")
  | Json.arr _ => Except.error "list indices must be integers or slices, not str"
  | Json.str _ => Except.error "string indices must be integers"
  | other =>
    Except.error
      ("\x27" ++ pyTypeName other ++ "\x27 object is not subscriptable")

/-- Python `v[0]` (first-element subscript; the dicts reached here have
string keys, so on a dict it raises `KeyError: 0`). -/
def pyIndexZero (v : Json) : Except String Json :=
  match v with
  | Json.arr (a :: _) => Except.ok a
  | Json.arr [] => Except.error "list index out of range"
  | Json.str s =>
    match s.data with
    | c :: _ => Except.ok (Json.str c.toString)
    | [] => Except.error "string index out of range"
  | Json.obj _ => Except.error "0"
  | other =>
    Except.error
      ("\x27" ++ pyTypeName other ++ "\x27 object is not subscriptable")

/-- `MCPClient.call_tool` of the legacy client (mcp_client.py): `tools` is
the key set of `self.tools` (a pydantic-validated dict with string keys) and
`response` the value `_send_request` returned (`None` on any transport
failure, else the parsed response line).  Missing or empty content yields
the literal `"No response from tool"`; exceptions inside the `try` become
`"Error calling tool: ..."` strings. -/
def MCPClient.call_tool (tools : List String) (tool_name : String)
    (response : Option Json) : Json :=
  if !(tools.contains tool_name) then
    Json.str ("Tool \x27" ++ tool_name ++ "\x27 not found")
  else
    match response with
    | none => Json.str "No response from tool"
    | some r =>
      if !(pyTruthy r) then Json.str "No response from tool"
      else
        match pyInStrKey r "result" with
        | Except.error e => Json.str ("Error calling tool: " ++ e)
        | Except.ok false => Json.str "No response from tool"
        | Except.ok true =>
          match pyIndexStr r "result" with
          | Except.error e => Json.str ("Error calling tool: " ++ e)
          | Except.ok rv =>
            match pyGet rv "content" (Json.arr []) with
            | Except.error e => Json.str ("Error calling tool: " ++ e)
            | Except.ok content =>
              if !(pyTruthy content) then Json.str "No response from tool"
              else
                match pyLen content with
                | none =>
                  Json.str ("Error calling tool: object of type \x27" ++
                    pyTypeName content ++ "\x27 has no len()")
                | some n =>
                  if n > 0 then
                    match pyIndexZero content with
                    | Except.error e =>
                      Json.str ("Error calling tool: " ++ e)
                    | Except.ok first =>
                      match pyGet first "text" (Json.str "No response") with
                      | Except.error e =>
                        Json.str ("Error calling tool: " ++ e)
                      | Except.ok text => text
                  else Json.str "No response from tool"

/-- `MCPServerConfig` (mcp_server_manager.py, a pydantic model). -/
structure MCPServerConfig where
  command : List String
  args : List String
  description : String
  enabled : Bool
  env : List (String × String)
deriving DecidableEq

/-- Pydantic validation `MCPServerConfig(**server_config)`: requires a dict;
`command` is required and must be a list of strings; the other fields have
the model's defaults.  A failed validation is the per-entry `except` branch
(the entry is skipped), modelled as `none`. -/
def parseServerConfig (j : Json) : Option MCPServerConfig :=
  match j with
  | Json.obj kvs => do
    let strList : Json → Option (List String) := fun v =>
      match v with
      | Json.arr l => l.mapM fun e =>
          match e with
          | Json.str s => some s
          | _ => none
      | _ => none
    let command ← (lookupStr kvs "command").bind strList
    let args ←
      match lookupStr kvs "args" with
      | none => some []
      | some v => strList v
    let description ←
      match lookupStr kvs "description" with
      | none => some ""
      | some (Json.str s) => some s
      | some _ => none
    let enabled ←
      match lookupStr kvs "enabled" with
      | none => some true
      | some (Json.bool b) => some b
      | some _ => none
    let env ←
      match lookupStr kvs "env" with
      | none => some []
      | some (Json.obj ekvs) => ekvs.mapM fun kv =>
          match kv.2 with
          | Json.str s => some (kv.1, s)
          | _ => none
      | some _ => none
    some { command := command, args := args, description := description,
           enabled := enabled, env := env }
  | _ => none

/-- State of the `MCPServerManager` (the Registry). -/
structure MCPServerManager where
  config_file : String
  server_configs : List (String × MCPServerConfig)
  servers : List (String × FastMCPClient)
  global_settings : Json

/-- The `filesystem` entry of `_create_default_config`. -/
def defaultFilesystemConfig : MCPServerConfig :=
  { command := ["uvx", "mcp-server-filesystem"],
    args := ["/tmp/mcp-workspace"],
    description := "File system operations",
    enabled := true, env := [] }

/-- The `time` entry of `_create_default_config`. -/
def defaultTimeConfig : MCPServerConfig :=
  { command := ["uvx", "mcp-server-time"],
    args := [], description := "Time and date operations",
    enabled := true, env := [] }

/-- The `global_settings` document of `_create_default_config`. -/
def defaultGlobalSettings : Json :=
  Json.obj [("max_servers", Json.num 5), ("timeout_seconds", Json.num 30),
            ("workspace_directory", Json.str "/tmp/mcp-workspace")]

/-- `MCPServerManager._create_default_config`: writes the default file and,
when the write succeeds, loads the two default entries into
`self.server_configs` and the default global settings; a failed write raises
inside its own `try` before anything is loaded, so nothing changes. -/
def createDefaultConfig (m : MCPServerManager) (writeOk : Bool) :
    MCPServerManager :=
  if writeOk then
    { m with
      server_configs :=
        insertStr (insertStr m.server_configs "filesystem"
          defaultFilesystemConfig) "time" defaultTimeConfig,
      global_settings := defaultGlobalSettings }
  else m

/-- What the configuration file yielded: absent, unreadable/unparsable
(`open` or `yaml.safe_load` raised), or a parsed document. -/
inductive ConfigFile where
  | missing : ConfigFile
  | unreadable : ConfigFile
  | parsed : Json → ConfigFile

/-- The per-entry loop of `_load_config` over `config['mcp_servers'].items()`:
valid entries are assigned into the existing `self.server_configs` dict,
invalid ones are logged and skipped. -/
def loadConfigEntries (cfgs : List (String × MCPServerConfig))
    (entries : List (String × Json)) : List (String × MCPServerConfig) :=
  entries.foldl
    (fun acc kv =>
      match parseServerConfig kv.2 with
      | some c => insertStr acc kv.1 c
      | none => acc)
    cfgs

/-- `MCPServerManager._load_config`: a missing file falls back to
`_create_default_config`, as does any exception while reading, parsing or
walking the document (`'mcp_servers' in config` on a non-container,
`.items()` on a non-dict value, `.get` on a non-dict document).  A parsed
dict document only assigns entries into `self.server_configs` — the dict is
never cleared or rebuilt. -/
def loadConfig (m : MCPServerManager) (file : ConfigFile) (writeOk : Bool) :
    MCPServerManager :=
  match file with
  | ConfigFile.missing => createDefaultConfig m writeOk
  | ConfigFile.unreadable => createDefaultConfig m writeOk
  | ConfigFile.parsed cfg =>
    match cfg with
    | Json.obj kvs =>
      match lookupStr kvs "mcp_servers" with
      | some (Json.obj entries) =>
        { m with
          server_configs := loadConfigEntries m.server_configs entries,
          global_settings := getD kvs "global_settings" (Json.obj []) }
      | some _ => createDefaultConfig m writeOk
      | none =>
        { m with global_settings := getD kvs "global_settings" (Json.obj []) }
    | _ => createDefaultConfig m writeOk

/-- `MCPServerManager.reload_config`: re-runs `_load_config` (the old
configs are only copied for diff logging). -/
def MCPServerManager.reload_config (m : MCPServerManager) (file : ConfigFile)
    (writeOk : Bool) : MCPServerManager :=
  loadConfig m file writeOk

/-- The server names for which `reload_config`'s diff loop runs its
`"Server config removed"` branch: names in the old or new key set that are
present in the old configs but absent from the new ones. -/
def reloadRemovedNames (m : MCPServerManager) (file : ConfigFile)
    (writeOk : Bool) : List String :=
  let old := keysStr m.server_configs
  let new := keysStr (m.reload_config file writeOk).server_configs
  (old ++ new).filter fun n => old.contains n && !(new.contains n)

/-- Result of the synchronous prefix of `start_server` (everything before
the `await client.connect()` suspension point). -/
inductive StartPhase1 where
  | notFound : StartPhase1
  | disabled : StartPhase1
  | alreadyRunning : StartPhase1
  | proceed : MCPServerConfig → StartPhase1

/-- The checks `start_server` runs before suspending: unknown name and
disabled configuration fail; a name already in `self.servers` is a no-op
success; otherwise the server command is assembled and a fresh client is
built, and the coroutine suspends in `client.connect()`. -/
def startServerPhase1 (m : MCPServerManager) (name : String) : StartPhase1 :=
  match lookupStr m.server_configs name with
  | none => StartPhase1.notFound
  | some config =>
    if !config.enabled then StartPhase1.disabled
    else if (lookupStr m.servers name).isSome then StartPhase1.alreadyRunning
    else StartPhase1.proceed config

/-- The code `start_server` runs after `client.connect()` resumes: on
success the client is assigned into `self.servers[server_name]`, on failure
nothing is registered. -/
def startServerPhase2 (m : MCPServerManager) (name : String)
    (client : FastMCPClient) (success : Bool) : MCPServerManager × Bool :=
  if success then ({ m with servers := insertStr m.servers name client }, true)
  else (m, false)

/-- `MCPServerManager.start_server(server_name)` run to completion with no
interleaved registry activity, with `env` the behaviour of the spawned
process during `connect()`. -/
def MCPServerManager.start_server (m : MCPServerManager) (name : String)
    (env : ConnectEnv) : MCPServerManager × Bool :=
  match startServerPhase1 m name with
  | StartPhase1.notFound => (m, false)
  | StartPhase1.disabled => (m, false)
  | StartPhase1.alreadyRunning => (m, true)
  | StartPhase1.proceed config =>
    let connected :=
      (FastMCPClient.init name (config.command ++ config.args)).connect env
    startServerPhase2 m name connected.1 connected.2

/-- `MCPServerManager.stop_server(server_name)`: a name that is not running
is a no-op success; otherwise the client is disconnected (`disconnect`
never raises, whatever its `await self.client.close()` call does, so the
`except` branch of `stop_server` is dead code) and its entry deleted. -/
def MCPServerManager.stop_server (m : MCPServerManager) (name : String)
    (close : CloseOutcome) : MCPServerManager × Bool :=
  match lookupStr m.servers name with
  | none => (m, true)
  | some c =>
    let _ := c.disconnect close
    ({ m with servers := eraseStr m.servers name }, true)

/-- One entry of `get_all_tools()`'s result list. -/
structure AggTool where
  server : String
  name : Json
  description : Json
  input_schema : Json
  full_name : String
deriving DecidableEq

/-- The `get_all_tools()` entry built for tool `t` of server `sname`
(`full_name` is the f-string `f"{server_name}:{tool.name}"`). -/
def mkAggTool (sname : String) (t : Tool) : AggTool :=
  { server := sname, name := t.name, description := t.description,
    input_schema := t.input_schema,
    full_name := sname ++ ":" ++ pyStr t.name }

/-- `MCPServerManager.get_all_tools()`: every running client's catalog, in
registry order then discovery order, tagged with its server name and
qualified name. -/
def MCPServerManager.get_all_tools (m : MCPServerManager) : List AggTool :=
  m.servers.flatMap fun sc =>
    (sc.2.get_available_tools).map fun t => mkAggTool sc.1 t

/-- `MCPServerManager.call_tool(server_name, tool_name, arguments)`: routes
to the named running client, or returns the literal not-found string. -/
def MCPServerManager.call_tool (m : MCPServerManager)
    (server_name tool_name : String) (arguments : Json)
    (outcome : CallOutcome) (now : String) : Json :=
  match lookupStr m.servers server_name with
  | none =>
    Json.str ("Server " ++ server_name ++ " not found or not running")
  | some client => client.call_tool tool_name arguments outcome now

/-- One entry of `get_server_status()`. -/
structure ServerStatus where
  enabled : Bool
  running : Bool
  description : String
  tools_count : Nat
  resources_count : Nat
  command : String
deriving DecidableEq

/-- `MCPServerManager.get_server_status()`: one entry per *configured*
server, whether running or not. -/
def MCPServerManager.get_server_status (m : MCPServerManager) :
    List (String × ServerStatus) :=
  m.server_configs.map fun nc =>
    (nc.1,
      match lookupStr m.servers nc.1 with
      | some c =>
        { enabled := nc.2.enabled, running := true,
          description := nc.2.description,
          tools_count := c.get_available_tools.length,
          resources_count := c.get_available_resources.length,
          command := " ".intercalate (nc.2.command ++ nc.2.args) }
      | none =>
        { enabled := nc.2.enabled, running := false,
          description := nc.2.description,
          tools_count := 0, resources_count := 0,
          command := " ".intercalate (nc.2.command ++ nc.2.args) })

/-- Result of running two overlapping `start_server(name)` calls. -/
structure ConcurrentStartResult where
  manager : MCPServerManager
  resultA : Bool
  resultB : Bool
  liveProcesses : Nat

/-- Number of child processes left alive by one completed `connect()`: a
successful connect leaves its spawned process running (`self.process` set);
every failure path has run `_cleanup()`, which terminated it. -/
def liveAfterConnect (c : FastMCPClient) : Nat :=
  if c.process.isSome then 1 else 0

/-- Two overlapping `start_server(name)` calls A and B on the asyncio event
loop, under the schedule where each runs its synchronous prefix before
either resumes from `await client.connect()`: A checks (phase 1), suspends;
B checks the still-unchanged registry, suspends; A's connect resolves and A
registers (phase 2); then B's connect resolves and B registers.  When the
checks do not pass, a call never suspends and the two calls run one after
the other. -/
def twoConcurrentStarts (m0 : MCPServerManager) (name : String)
    (envA envB : ConnectEnv) : ConcurrentStartResult :=
  match startServerPhase1 m0 name, startServerPhase1 m0 name with
  | StartPhase1.proceed cfgA, StartPhase1.proceed cfgB =>
    let ca := (FastMCPClient.init name (cfgA.command ++ cfgA.args)).connect envA
    let cb := (FastMCPClient.init name (cfgB.command ++ cfgB.args)).connect envB
    let stepA := startServerPhase2 m0 name ca.1 ca.2
    let stepB := startServerPhase2 stepA.1 name cb.1 cb.2
    { manager := stepB.1, resultA := stepA.2, resultB := stepB.2,
      liveProcesses := liveAfterConnect ca.1 + liveAfterConnect cb.1 }
  | _, _ =>
    let stepA := m0.start_server name envA
    let stepB := stepA.1.start_server name envB
    { manager := stepB.1, resultA := stepA.2, resultB := stepB.2,
      liveProcesses :=
        (stepA.1.servers.filter fun p => p.1 = name).length }

/-- The tool names a discovery response's dict items produce (the values the
loop would use as dict keys), in order. -/
def toolEntryNames (entries : List Json) : List Json :=
  entries.filterMap fun e =>
    match e with
    | Json.obj kvs => some (getD kvs "name" (Json.str ""))
    | _ => none

/-- Pairwise Python-`==`-distinct and hashable names: the spec's data-model
invariant that a tool name is unique within its owning server. -/
def distinctHashableNames : List Json → Bool
  | [] => true
  | n :: rest =>
    pyHashable n && rest.all (fun n2 => !pyEq n n2 && !pyEq n2 n) &&
      distinctHashableNames rest

/-- An empty registry over an empty configuration. -/
def emptyManager : MCPServerManager :=
  { config_file := "mcp_servers.yaml", server_configs := [], servers := [],
    global_settings := Json.obj [] }

/-- A registry with one enabled configured server and nothing running. -/
def oneConfigManager : MCPServerManager :=
  { config_file := "mcp_servers.yaml",
    server_configs := [("filesystem", defaultFilesystemConfig)],
    servers := [], global_settings := Json.obj [] }

/-- A registry whose `time` server is configured but disabled. -/
def disabledConfigManager : MCPServerManager :=
  { config_file := "mcp_servers.yaml",
    server_configs :=
      [("time",
        { command := ["uvx", "mcp-server-time"], args := [],
          description := "Time and date operations", enabled := false,
          env := [] })],
    servers := [], global_settings := Json.obj [] }

/-- A connected client whose catalog holds one tool named `read`. -/
def readToolClient : FastMCPClient :=
  { server_name := "filesystem", server_command := ["uvx"],
    client := some (), process := some (),
    tools := [(Json.str "read",
      { name := Json.str "read", description := Json.str "Read a file",
        input_schema := Json.obj [("type", Json.str "object")] })],
    resources := [], connected := true }

/-- A registry running two servers, `alpha` (with the `read` tool) and
`beta`. -/
def twoServerManager : MCPServerManager :=
  { config_file := "mcp_servers.yaml", server_configs := [],
    servers :=
      [("alpha", { readToolClient with server_name := "alpha" }),
       ("beta", { readToolClient with server_name := "beta" })],
    global_settings := Json.obj [] }

/-! ## Supporting lemmas -/

theorem lookupStr_eq_none {α : Type} {d : List (String × α)} {k : String}
    (h : lookupStr d k = none) : ∀ p ∈ d, p.1 ≠ k := by
  induction d with
  | nil => intro p hp; cases hp
  | cons hd tl ih =>
    intro p hp
    rw [lookupStr] at h
    by_cases hk : hd.1 = k
    · simp [hk] at h
    · rcases List.mem_cons.mp hp with hp2 | hp2
      · simpa [hp2] using hk
      · exact ih (by simpa [hk] using h) p hp2

theorem insertStr_self_mem {α : Type} (d : List (String × α)) (k : String)
    (v : α) : (k, v) ∈ insertStr d k v := by
  induction d with
  | nil => simp [insertStr]
  | cons hd tl ih =>
    rw [insertStr]
    by_cases hk : k = hd.1
    · simp [hk]
    · simp [hk, ih]

theorem keys_insertStr_sub {α : Type} {d : List (String × α)} {n : String}
    (k : String) (v : α) (h : n ∈ keysStr d) :
    n ∈ keysStr (insertStr d k v) := by
  induction d with
  | nil => cases h
  | cons hd tl ih =>
    rw [insertStr]
    by_cases hk : k = hd.1
    · simpa [hk, keysStr] using h
    · rcases (by simpa [keysStr] using h : n = hd.1 ∨ n ∈ keysStr tl) with
        h1 | h1
      · simp [hk, keysStr, h1]
      · simpa [hk, keysStr] using Or.inr (by simpa [keysStr] using ih h1)

theorem pyEq_str_str (s t : String) :
    pyEq (Json.str s) (Json.str t) = (s == t) := rfl

theorem pyEq_str_null (s : String) : pyEq (Json.str s) Json.null = false := rfl

theorem pyEq_str_bool (s : String) (b : Bool) :
    pyEq (Json.str s) (Json.bool b) = false := rfl

theorem pyEq_str_num (s : String) (n : Int) :
    pyEq (Json.str s) (Json.num n) = false := rfl

theorem pyEq_str_arr (s : String) (l : List Json) :
    pyEq (Json.str s) (Json.arr l) = false := rfl

theorem pyEq_str_obj (s : String) (l : List (String × Json)) :
    pyEq (Json.str s) (Json.obj l) = false := rfl

theorem pyEq_str_iff {s : String} {k : Json} :
    pyEq (Json.str s) k = true ↔ k = Json.str s := by
  cases k with
  | null => simp [pyEq_str_null]
  | bool b => simp [pyEq_str_bool]
  | num n => simp [pyEq_str_num]
  | str t =>
    simp only [pyEq_str_str, beq_iff_eq, Json.str.injEq]
    exact eq_comm
  | arr l => simp [pyEq_str_arr]
  | obj l => simp [pyEq_str_obj]

theorem insertPy_mem_of_ne {α : Type} {d : List (Json × α)} {p : Json × α}
    (k : Json) (v : α) (hp : p ∈ d) (hne : pyEq k p.1 = false) :
    p ∈ insertPy d k v := by
  induction d with
  | nil => cases hp
  | cons hd tl ih =>
    rw [insertPy]
    by_cases hk : pyEq k hd.1
    · rcases List.mem_cons.mp hp with hp2 | hp2
      · rw [hp2] at hne; rw [hne] at hk; cases hk
      · simp [hk, List.mem_cons, hp2]
    · rcases List.mem_cons.mp hp with hp2 | hp2
      · simp [hk, hp2]
      · simp [hk, List.mem_cons, ih hp2]

theorem insertPy_eq_append {α : Type} {d : List (Json × α)} {k : Json}
    (v : α) (hfresh : ∀ p ∈ d, pyEq k p.1 = false) :
    insertPy d k v = d ++ [(k, v)] := by
  induction d with
  | nil => rfl
  | cons hd tl ih =>
    rw [insertPy]
    have hk : pyEq k hd.1 = false := hfresh hd (List.mem_cons_self hd tl)
    simp [hk]
    exact ih fun p hp => hfresh p (List.mem_cons_of_mem hd hp)

theorem insertPy_str_self_mem {α : Type} (d : List (Json × α)) (s : String)
    (v : α) : (Json.str s, v) ∈ insertPy d (Json.str s) v := by
  induction d with
  | nil => simp [insertPy]
  | cons hd tl ih =>
    rw [insertPy]
    by_cases hk : pyEq (Json.str s) hd.1
    · have h1 : hd.1 = Json.str s := pyEq_str_iff.mp hk
      simp [hk, h1, pyEq_str_str]
    · simp [hk, List.mem_cons, ih]

theorem mock_pair_mem_addMockTools (d : List (Json × Tool)) {t : Tool}
    (ht : t ∈ mockTools) : (t.name, t) ∈ addMockTools d := by
  have he : addMockTools d =
      insertPy (insertPy (insertPy (insertPy d
        (Json.str "filesystem_read") mockFilesystemRead)
        (Json.str "filesystem_write") mockFilesystemWrite)
        (Json.str "web_search") mockWebSearch)
        (Json.str "time_now") mockTimeNow := rfl
  rw [he]
  rcases (by simpa [mockTools] using ht :
      t = mockFilesystemRead ∨ t = mockFilesystemWrite ∨
      t = mockWebSearch ∨ t = mockTimeNow) with h | h | h | h <;> subst h
  · refine insertPy_mem_of_ne _ _ ?_ (by decide)
    refine insertPy_mem_of_ne _ _ ?_ (by decide)
    refine insertPy_mem_of_ne _ _ ?_ (by decide)
    exact insertPy_str_self_mem d "filesystem_read" mockFilesystemRead
  · refine insertPy_mem_of_ne _ _ ?_ (by decide)
    refine insertPy_mem_of_ne _ _ ?_ (by decide)
    exact insertPy_str_self_mem _ "filesystem_write" mockFilesystemWrite
  · refine insertPy_mem_of_ne _ _ ?_ (by decide)
    exact insertPy_str_self_mem _ "web_search" mockWebSearch
  · exact insertPy_str_self_mem _ "time_now" mockTimeNow

theorem connect_false_tools (c : FastMCPClient) (env : ConnectEnv)
    (h : (c.connect env).2 = false) :
    ∃ d, (c.connect env).1.tools = addMockTools d := by
  cases env with
  | spawnFail => exact ⟨c.tools, rfl⟩
  | connectFail => exact ⟨c.tools, rfl⟩
  | responses tr rr =>
    by_cases h1 : (loadToolsInto c.tools tr).2
    · exact ⟨(loadToolsInto c.tools tr).1,
        by simp [FastMCPClient.connect, h1, FastMCPClient.failPath]⟩
    · by_cases h2 : (loadResourcesInto c.resources rr).2
      · exact ⟨(loadToolsInto c.tools tr).1,
          by simp [FastMCPClient.connect, h1, h2, FastMCPClient.failPath]⟩
      · exfalso
        simp [FastMCPClient.connect, h1, h2] at h

/-- Claim C9: after `connect()` returns — on the success path and on every
failure path alike — `self.connected` is `True`, so `is_connected()` reports
`true` even for a client that never reached a real server. -/
theorem claim_c9_connect_always_sets_connected (c : FastMCPClient)
    (env : ConnectEnv) : ((c.connect env).1).is_connected = true := by
  cases env with
  | spawnFail => rfl
  | connectFail => rfl
  | responses tr rr =>
    by_cases h1 : (loadToolsInto c.tools tr).2 <;>
      by_cases h2 : (loadResourcesInto c.resources rr).2 <;>
        simp [FastMCPClient.connect, h1, h2, FastMCPClient.failPath,
          FastMCPClient.is_connected]

/-- Claim C2: `connect()` is a total function into a definite boolean (the
top-level `except` swallows every exception, so nothing propagates to the
Registry); whenever it returns `False` the client's catalog contains the
whole fixed mock fallback catalog and in particular is non-empty, and on a
spawn failure it is exactly the mock catalog. -/
theorem claim_c2_connect_failure_mock_catalog (name : String)
    (cmd : List String) (env : ConnectEnv) :
    (((FastMCPClient.init name cmd).connect env).2 = false →
      (∀ t ∈ mockTools,
        t ∈ ((FastMCPClient.init name cmd).connect env).1.get_available_tools) ∧
      ((FastMCPClient.init name cmd).connect env).1.get_available_tools ≠ []) ∧
    (env = ConnectEnv.spawnFail →
      ((FastMCPClient.init name cmd).connect env).1.get_available_tools =
        mockTools) := by
  constructor
  · intro h
    obtain ⟨d, hd⟩ := connect_false_tools (FastMCPClient.init name cmd) env h
    have hmem : ∀ t ∈ mockTools,
        t ∈ ((FastMCPClient.init name cmd).connect env).1.get_available_tools := by
      intro t ht
      have hp := mock_pair_mem_addMockTools d ht
      rw [← hd] at hp
      simpa [FastMCPClient.get_available_tools] using
        List.mem_map_of_mem Prod.snd hp
    refine ⟨hmem, ?_⟩
    exact List.ne_nil_of_mem (hmem mockFilesystemRead (by simp [mockTools]))
  · intro h
    subst h
    rfl

/-- Claim C2 witness: a client built for a nonexistent command whose spawn
fails reports failure yet serves the four mock tools. -/
theorem claim_c2_witness :
    ((FastMCPClient.init "broken" ["no-such-cmd"]).connect
        ConnectEnv.spawnFail).2 = false ∧
    ((FastMCPClient.init "broken" ["no-such-cmd"]).connect
        ConnectEnv.spawnFail).1.get_available_tools ≠ [] :=
  ⟨rfl,
    ((claim_c2_connect_failure_mock_catalog "broken" ["no-such-cmd"]
      ConnectEnv.spawnFail).1 rfl).2⟩

/-- Claim C3: `start_server` on a configured-but-disabled server returns
`False` and leaves the whole registry state — in particular the
running-server map — unchanged. -/
theorem claim_c3_disabled_start_is_noop_failure (m : MCPServerManager)
    (name : String) (env : ConnectEnv) (cfg : MCPServerConfig)
    (h1 : lookupStr m.server_configs name = some cfg)
    (h2 : cfg.enabled = false) :
    m.start_server name env = (m, false) := by
  simp [MCPServerManager.start_server, startServerPhase1, h1, h2]

/-- Claim C3 witness: starting the disabled `time` server fails without
adding a registry entry. -/
theorem claim_c3_witness :
    disabledConfigManager.start_server "time" ConnectEnv.spawnFail =
      (disabledConfigManager, false) :=
  claim_c3_disabled_start_is_noop_failure disabledConfigManager "time"
    ConnectEnv.spawnFail
    { command := ["uvx", "mcp-server-time"], args := [],
      description := "Time and date operations", enabled := false, env := [] }
    rfl rfl

/-- Claim C1: `Registry.call_tool` on a server name absent from the
running-server map returns the literal `Server <name> not found or not
running` string (the functions are total, so no exception is raised), and a
client's `call_tool` on a tool name absent from its discovered catalog
returns the descriptive `Tool ... not found ...` string. -/
theorem claim_c1_unknown_names_yield_error_strings :
    (∀ (m : MCPServerManager) (s t : String) (args : Json)
       (oc : CallOutcome) (now : String),
       lookupStr m.servers s = none →
       m.call_tool s t args oc now =
         Json.str ("Server " ++ s ++ " not found or not running")) ∧
    (∀ (c : FastMCPClient) (t : String) (args : Json) (oc : CallOutcome)
       (now : String),
       memPy c.tools (Json.str t) = false →
       c.call_tool t args oc now =
         Json.str ("Tool \x27" ++ t ++ "\x27 not found in server \x27" ++
           c.server_name ++ "\x27")) := by
  constructor
  · intro m s t args oc now h
    simp [MCPServerManager.call_tool, h]
  · intro c t args oc now h
    simp [FastMCPClient.call_tool, h]

/-- Claim C1 witness: the spec's scenario —
`call_tool("filesystem", "read", \x7b"path": "/x"\x7d)` with `filesystem`
not running — returns the literal pattern, and `read` on a freshly built
client with an empty catalog returns the tool-not-found string. -/
theorem claim_c1_witness :
    emptyManager.call_tool "filesystem" "read"
        (Json.obj [("path", Json.str "/x")]) (CallOutcome.ok Json.null) "t" =
      Json.str "Server filesystem not found or not running" ∧
    (FastMCPClient.init "filesystem" ["uvx"]).call_tool "read"
        (Json.obj [("path", Json.str "/x")]) (CallOutcome.ok Json.null) "t" =
      Json.str "Tool \x27read\x27 not found in server \x27filesystem\x27" :=
  ⟨claim_c1_unknown_names_yield_error_strings.1 emptyManager "filesystem"
      "read" (Json.obj [("path", Json.str "/x")]) (CallOutcome.ok Json.null)
      "t" rfl,
    claim_c1_unknown_names_yield_error_strings.2
      (FastMCPClient.init "filesystem" ["uvx"]) "read"
      (Json.obj [("path", Json.str "/x")]) (CallOutcome.ok Json.null) "t" rfl⟩

/-- Claim C7 counterexample: `disconnect()` does not clear the in-memory
catalogs — a client whose spawn failed holds the four mock tools and still
returns all of them after `disconnect()`, where the claim says
`get_available_tools()` is empty — and it is not unconditionally
idempotent: on a client whose `close()` raises, `_cleanup()` is skipped and
the process handle survives the first disconnect, so a second disconnect
still changes the state. -/
theorem claim_c7_counterexample :
    ((((FastMCPClient.init "filesystem" ["uvx"]).connect
        ConnectEnv.spawnFail).1.disconnect
        CloseOutcome.ok).get_available_tools ≠ []) ∧
    ((readToolClient.disconnect CloseOutcome.raises).disconnect
        CloseOutcome.ok ≠
      readToolClient.disconnect CloseOutcome.raises) := by
  constructor <;> decide

/-- Claim C7 as amended: a second `disconnect()` after one in which
`client.close()` did not raise leaves the client state unchanged (after a
disconnect whose `close()` raised, the skipped `_cleanup()` leaves the
process handle for a later call to clear), and `disconnect()` never clears
the in-memory catalogs: `get_available_tools()` and
`get_available_resources()` return the pre-disconnect catalogs after any
disconnect, not empty lists. -/
theorem claim_c7_amended_disconnect_idempotent_keeps_catalogs :
    (∀ (c : FastMCPClient) (close2 : CloseOutcome),
       (c.disconnect CloseOutcome.ok).disconnect close2 =
         c.disconnect CloseOutcome.ok) ∧
    (∀ (c : FastMCPClient) (close : CloseOutcome),
       (c.disconnect close).get_available_tools = c.get_available_tools ∧
       (c.disconnect close).get_available_resources =
         c.get_available_resources) := by
  constructor
  · intro c close2
    cases hc : c.client <;> cases close2 <;>
      simp [FastMCPClient.disconnect, hc]
  · intro c close
    cases hc : c.client <;> cases close <;>
      simp [FastMCPClient.disconnect, hc, FastMCPClient.get_available_tools,
        FastMCPClient.get_available_resources]

/-- Claim C8: two overlapping `start_server` calls for the same enabled name
should produce exactly one live child process and one registry entry.  The
code violates the one-live-process half: under the asyncio schedule where
both calls pass their `server_name in self.servers` check before either
resumes from `await client.connect()`, both spawn, both report success, the
registry ends with one entry (the second client silently overwrites the
first), and two child processes are left alive — nothing ever terminates
the overwritten client's process. -/
theorem claim_c8_duplicate_spawn_in_concurrent_start :
    (twoConcurrentStarts oneConfigManager "filesystem"
        (ConnectEnv.responses Json.null Json.null)
        (ConnectEnv.responses Json.null Json.null)).liveProcesses = 2 ∧
    ((twoConcurrentStarts oneConfigManager "filesystem"
        (ConnectEnv.responses Json.null Json.null)
        (ConnectEnv.responses Json.null Json.null)).manager.servers.filter
      fun p => p.1 = "filesystem").length = 1 ∧
    (twoConcurrentStarts oneConfigManager "filesystem"
        (ConnectEnv.responses Json.null Json.null)
        (ConnectEnv.responses Json.null Json.null)).resultA = true ∧
    (twoConcurrentStarts oneConfigManager "filesystem"
        (ConnectEnv.responses Json.null Json.null)
        (ConnectEnv.responses Json.null Json.null)).resultB = true :=
  ⟨rfl, rfl, rfl, rfl⟩

/-- Claim C6 counterexample: in the FastMCP client (the one the Registry
routes through), a tool call whose result dict carries an *empty* content
list does not return a defined "no response" string — it returns the
stringified result dict — and with the content key *missing* but a
`result` key present it returns `str(result["result"])`, again not a
defined "no response" string. -/
theorem claim_c6_counterexample :
    (readToolClient.call_tool "read" (Json.obj [])
        (CallOutcome.ok (Json.obj [("content", Json.arr [])])) "now" =
      Json.str "\x7b\x27content\x27: []\x7d" ∧
    Json.str "\x7b\x27content\x27: []\x7d" ≠
      Json.str "No response from tool" ∧
    Json.str "\x7b\x27content\x27: []\x7d" ≠ Json.str "No response") ∧
    (readToolClient.call_tool "read" (Json.obj [])
        (CallOutcome.ok (Json.obj [("result", Json.str "done")])) "now" =
      Json.str "done" ∧
    Json.str "done" ≠ Json.str "No response from tool") := by
  refine ⟨⟨rfl, ?_, ?_⟩, rfl, ?_⟩ <;> decide

/-- Claim C6 as amended: the *legacy* client (mcp_client.py) returns the
defined `No response from tool` string when the response is missing, has no
`result`, or has a `result` whose `content` is missing or the empty list;
the FastMCP client actually used by the Registry never produces a defined
"no response" string there: a result dict with an empty `content` list
yields `str(result)`, one with no `content` key yields
`str(result["result"])` when a `result` key is present and `str(result)`
otherwise. -/
theorem claim_c6_amended_no_response_strings :
    (∀ (tools : List String) (tn : String) (r : Option Json),
       tools.contains tn = true →
       (r = none ∨
        (∃ kvs, r = some (Json.obj kvs) ∧ lookupStr kvs "result" = none) ∨
        (∃ kvs rkvs, r = some (Json.obj kvs) ∧
          lookupStr kvs "result" = some (Json.obj rkvs) ∧
          (lookupStr rkvs "content" = none ∨
           lookupStr rkvs "content" = some (Json.arr [])))) →
       MCPClient.call_tool tools tn r = Json.str "No response from tool") ∧
    (∀ (c : FastMCPClient) (tn : String) (args : Json) (now : String)
       (kvs : List (String × Json)),
       memPy c.tools (Json.str tn) = true →
       c.client = some () →
       (lookupStr kvs "content" = some (Json.arr []) →
         c.call_tool tn args (CallOutcome.ok (Json.obj kvs)) now =
           Json.str (pyStr (Json.obj kvs))) ∧
       (∀ rv, lookupStr kvs "content" = none →
         lookupStr kvs "result" = some rv →
         c.call_tool tn args (CallOutcome.ok (Json.obj kvs)) now =
           Json.str (pyStr rv)) ∧
       (lookupStr kvs "content" = none →
         lookupStr kvs "result" = none →
         c.call_tool tn args (CallOutcome.ok (Json.obj kvs)) now =
           Json.str (pyStr (Json.obj kvs)))) := by
  constructor
  · intro tools tn r hc hdisj
    have hmem : tn ∈ tools := by simpa using hc
    rcases hdisj with h | ⟨kvs, hr, hres⟩ | ⟨kvs, rkvs, hr, hres, hcontent⟩
    · subst h
      simp [MCPClient.call_tool, hmem]
    · subst hr
      by_cases hk : kvs.isEmpty
      · simp [MCPClient.call_tool, hmem, pyTruthy, hk]
      · simp [MCPClient.call_tool, hmem, pyTruthy, hk, pyInStrKey, hres]
    · subst hr
      have hk : kvs.isEmpty = false := by
        cases kvs with
        | nil => cases hres
        | cons a l => rfl
      rcases hcontent with hc2 | hc2 <;>
        simp [MCPClient.call_tool, hmem, pyTruthy, hk, pyInStrKey, pyIndexStr,
          hres, pyGet, getD, hc2]
  · intro c tn args now kvs h1 h2
    refine ⟨?_, ?_, ?_⟩
    · intro h3
      simp [FastMCPClient.call_tool, h1, h2, handleCallResult, h3]
    · intro rv h3 h4
      simp [FastMCPClient.call_tool, h1, h2, handleCallResult, h3, h4]
    · intro h3 h4
      simp [FastMCPClient.call_tool, h1, h2, handleCallResult, h3, h4]

/-- Claim C6 witness: a known tool whose `result` object has no content
yields `No response from tool` from the legacy client. -/
theorem claim_c6_witness :
    MCPClient.call_tool ["read"] "read"
        (some (Json.obj [("result", Json.obj [])])) =
      Json.str "No response from tool" :=
  claim_c6_amended_no_response_strings.1 ["read"] "read"
    (some (Json.obj [("result", Json.obj [])])) rfl
    (Or.inr (Or.inr ⟨[("result", Json.obj [])], [], rfl, rfl, Or.inl rfl⟩))

theorem get_all_tools_server_of_mem {m : MCPServerManager} {e : AggTool}
    (h : e ∈ m.get_all_tools) : ∃ p ∈ m.servers, e.server = p.1 := by
  rw [MCPServerManager.get_all_tools, List.mem_flatMap] at h
  obtain ⟨p, hp, he⟩ := h
  obtain ⟨t, _, rfl⟩ := List.mem_map.mp he
  exact ⟨p, hp, rfl⟩

/-- Claim C4: after `stop_server(name)`, `get_all_tools()` contains no entry
whose server field equals `name` — the disconnect and the registry-entry
removal happen together, so no stale catalog is presented. -/
theorem claim_c4_stop_removes_catalog (m : MCPServerManager) (name : String)
    (close : CloseOutcome) :
    ∀ e ∈ ((m.stop_server name close).1).get_all_tools, e.server ≠ name := by
  intro e he
  rw [MCPServerManager.stop_server] at he
  cases hl : lookupStr m.servers name with
  | none =>
    rw [hl] at he
    obtain ⟨p, hp, hs⟩ := get_all_tools_server_of_mem he
    rw [hs]
    exact lookupStr_eq_none hl p hp
  | some c =>
    rw [hl] at he
    obtain ⟨p, hp, hs⟩ := get_all_tools_server_of_mem he
    rw [hs]
    have : p ∈ eraseStr m.servers name := hp
    rw [eraseStr] at this
    have := List.of_mem_filter this
    simpa using this

/-- Claim C4 witness: with `alpha` and `beta` running, stopping `beta`
leaves only entries tagged `alpha` — applied to the surviving entry. -/
theorem claim_c4_witness :
    mkAggTool "alpha"
        { name := Json.str "read", description := Json.str "Read a file",
          input_schema := Json.obj [("type", Json.str "object")] } ∈
      ((twoServerManager.stop_server "beta" CloseOutcome.ok).1).get_all_tools ∧
    (mkAggTool "alpha"
        { name := Json.str "read", description := Json.str "Read a file",
          input_schema := Json.obj [("type", Json.str "object")] }).server ≠
      "beta" :=
  ⟨by decide,
    claim_c4_stop_removes_catalog twoServerManager "beta" CloseOutcome.ok
      (mkAggTool "alpha"
        { name := Json.str "read", description := Json.str "Read a file",
          input_schema := Json.obj [("type", Json.str "object")] })
      (by decide)⟩

theorem keys_loadConfigEntries_sub {n : String}
    (entries : List (String × Json)) (cfgs : List (String × MCPServerConfig))
    (h : n ∈ keysStr cfgs) : n ∈ keysStr (loadConfigEntries cfgs entries) := by
  induction entries generalizing cfgs with
  | nil => exact h
  | cons hd tl ih =>
    have step : loadConfigEntries cfgs (hd :: tl) =
        loadConfigEntries
          (match parseServerConfig hd.2 with
           | some c => insertStr cfgs hd.1 c
           | none => cfgs) tl := rfl
    rw [step]
    cases hp : parseServerConfig hd.2 with
    | none => simpa [hp] using ih cfgs h
    | some c => simpa [hp] using ih _ (keys_insertStr_sub hd.1 c h)

theorem keys_loadConfig_sub {m : MCPServerManager} {n : String}
    (file : ConfigFile) (writeOk : Bool) (h : n ∈ keysStr m.server_configs) :
    n ∈ keysStr (loadConfig m file writeOk).server_configs := by
  have hdefault : n ∈ keysStr (createDefaultConfig m writeOk).server_configs := by
    rw [createDefaultConfig]
    cases writeOk with
    | false => exact h
    | true =>
      exact keys_insertStr_sub _ _ (keys_insertStr_sub _ _ h)
  cases file with
  | missing => exact hdefault
  | unreadable => exact hdefault
  | parsed cfg =>
    cases cfg with
    | obj kvs =>
      rw [loadConfig]
      cases hms : lookupStr kvs "mcp_servers" with
      | none => exact h
      | some v =>
        cases v with
        | obj entries => exact keys_loadConfigEntries_sub entries _ h
        | null => exact hdefault
        | bool b => exact hdefault
        | num i => exact hdefault
        | str s => exact hdefault
        | arr l => exact hdefault
    | null => exact hdefault
    | bool b => exact hdefault
    | num i => exact hdefault
    | str s => exact hdefault
    | arr l => exact hdefault

theorem get_server_status_keys (m : MCPServerManager) :
    m.get_server_status.map Prod.fst = keysStr m.server_configs := by
  simp [MCPServerManager.get_server_status, keysStr, List.map_map,
    Function.comp]

/-- Claim C10: `_load_config` only adds or overwrites per-name entries, so
after `reload_config()` every previously configured server name is still in
`server_configs` (and hence in `get_server_status()`), and the diff loop's
`Server config removed` branch never fires. -/
theorem claim_c10_reload_never_removes_configs (m : MCPServerManager)
    (file : ConfigFile) (writeOk : Bool) (name : String)
    (h : name ∈ keysStr m.server_configs) :
    name ∈ keysStr (m.reload_config file writeOk).server_configs ∧
    reloadRemovedNames m file writeOk = [] ∧
    name ∈ (m.reload_config file writeOk).get_server_status.map Prod.fst := by
  refine ⟨keys_loadConfig_sub file writeOk h, ?_, ?_⟩
  · rw [reloadRemovedNames, List.filter_eq_nil_iff]
    intro a _
    by_cases ha : a ∈ keysStr m.server_configs
    · have hnew : a ∈ keysStr
          (m.reload_config file writeOk).server_configs :=
        keys_loadConfig_sub file writeOk ha
      simp [hnew]
    · simp [ha]
  · rw [get_server_status_keys]
    exact keys_loadConfig_sub file writeOk h

/-- Claim C10 witness: reloading a configuration file from which
`filesystem` has disappeared still leaves `filesystem` configured. -/
theorem claim_c10_witness :
    "filesystem" ∈ keysStr oneConfigManager.server_configs ∧
    "filesystem" ∈ keysStr
      (oneConfigManager.reload_config
        (ConfigFile.parsed (Json.obj [("mcp_servers", Json.obj [])]))
        true).server_configs ∧
    reloadRemovedNames oneConfigManager
      (ConfigFile.parsed (Json.obj [("mcp_servers", Json.obj [])])) true =
      [] :=
  ⟨by decide,
    (claim_c10_reload_never_removes_configs oneConfigManager
      (ConfigFile.parsed (Json.obj [("mcp_servers", Json.obj [])])) true
      "filesystem" (by decide)).1,
    (claim_c10_reload_never_removes_configs oneConfigManager
      (ConfigFile.parsed (Json.obj [("mcp_servers", Json.obj [])])) true
      "filesystem" (by decide)).2.1⟩

theorem toolsSource_arr (l : List Json) : toolsSource (Json.arr l) = some l := by
  cases l <;> rfl

theorem toolEntryNames_cons_obj (kvs : List (String × Json))
    (rest : List Json) :
    toolEntryNames (Json.obj kvs :: rest) =
      getD kvs "name" (Json.str "") :: toolEntryNames rest := rfl

theorem distinctHashableNames_cons {n : Json} {ns : List Json}
    (h : distinctHashableNames (n :: ns) = true) :
    pyHashable n = true ∧
    (∀ n2 ∈ ns, pyEq n n2 = false ∧ pyEq n2 n = false) ∧
    distinctHashableNames ns = true := by
  rw [distinctHashableNames] at h
  simp only [Bool.and_eq_true, List.all_eq_true] at h
  refine ⟨h.1.1, fun n2 h2 => ?_, h.2⟩
  have := h.1.2 n2 h2
  simp only [Bool.and_eq_true, Bool.not_eq_true'] at this
  exact this

theorem loadToolsLoop_no_raise (entries : List Json)
    (d : List (Json × Tool))
    (h : distinctHashableNames (toolEntryNames entries) = true) :
    (loadToolsLoop d entries).2 = false := by
  induction entries generalizing d with
  | nil => rfl
  | cons e rest ih =>
    cases e with
    | obj kvs =>
      rw [toolEntryNames_cons_obj] at h
      obtain ⟨hhash, _, hrest⟩ := distinctHashableNames_cons h
      rw [loadToolsLoop]
      simp only [mkTool] at hhash ⊢
      simp [hhash]
      exact ih _ hrest
    | null => exact ih d h
    | bool b => exact ih d h
    | num i => exact ih d h
    | str s => exact ih d h
    | arr l => exact ih d h

theorem loadToolsLoop_preserves (entries : List Json)
    (d : List (Json × Tool)) (p : Json × Tool) (hp : p ∈ d)
    (hfr : ∀ n2 ∈ toolEntryNames entries, pyEq n2 p.1 = false) :
    p ∈ (loadToolsLoop d entries).1 := by
  induction entries generalizing d with
  | nil => exact hp
  | cons e rest ih =>
    cases e with
    | obj kvs =>
      rw [loadToolsLoop]
      by_cases hhash : pyHashable (mkTool kvs).name
      · simp only [hhash, if_true]
        refine ih _ (insertPy_mem_of_ne _ _ hp ?_) ?_
        · exact hfr (mkTool kvs).name
            (by rw [toolEntryNames_cons_obj]; exact List.mem_cons_self _ _)
        · intro n2 h2
          exact hfr n2
            (by rw [toolEntryNames_cons_obj]; exact List.mem_cons_of_mem _ h2)
      · simp only [hhash, if_false]
        exact hp
    | null => exact ih d hp hfr
    | bool b => exact ih d hp hfr
    | num i => exact ih d hp hfr
    | str s => exact ih d hp hfr
    | arr l => exact ih d hp hfr

theorem loadToolsLoop_mem (entries : List Json) (d : List (Json × Tool))
    (kvs : List (String × Json))
    (hnames : distinctHashableNames (toolEntryNames entries) = true)
    (hfr : ∀ pd ∈ d, ∀ n2 ∈ toolEntryNames entries, pyEq n2 pd.1 = false)
    (hmem : Json.obj kvs ∈ entries) :
    ((mkTool kvs).name, mkTool kvs) ∈ (loadToolsLoop d entries).1 := by
  induction entries generalizing d with
  | nil => cases hmem
  | cons e rest ih =>
    cases e with
    | obj kvs0 =>
      rw [toolEntryNames_cons_obj] at hnames hfr
      obtain ⟨hhash, hall, hrest⟩ := distinctHashableNames_cons hnames
      have hname0 : (mkTool kvs0).name = getD kvs0 "name" (Json.str "") := rfl
      rw [loadToolsLoop]
      rw [← hname0] at hhash hall hfr
      simp only [hhash, if_true]
      have happend : insertPy d (mkTool kvs0).name (mkTool kvs0) =
          d ++ [((mkTool kvs0).name, mkTool kvs0)] :=
        insertPy_eq_append _ fun pd hpd =>
          hfr pd hpd _ (List.mem_cons_self _ _)
      rcases List.mem_cons.mp hmem with he | he
      · have hk : kvs = kvs0 := by injection he
        subst hk
        refine loadToolsLoop_preserves rest _ _ ?_ ?_
        · rw [happend]
          exact List.mem_append_right d (List.mem_singleton_self _)
        · intro n2 h2
          exact (hall n2 h2).2
      · refine ih _ hrest ?_ he
        intro pd hpd n2 h2
        rw [happend] at hpd
        rcases List.mem_append.mp hpd with hpd2 | hpd2
        · exact hfr pd hpd2 n2 (List.mem_cons_of_mem _ h2)
        · have : pd = ((mkTool kvs0).name, mkTool kvs0) := by
            simpa using hpd2
          rw [this]
          exact (hall n2 h2).2
    | null => exact ih d hnames hfr (by simpa using hmem)
    | bool b => exact ih d hnames hfr (by simpa using hmem)
    | num i => exact ih d hnames hfr (by simpa using hmem)
    | str s => exact ih d hnames hfr (by simpa using hmem)
    | arr l => exact ih d hnames hfr (by simpa using hmem)

/-- Claim C5 (round-trip): under the spec's data-model invariant that tool
names are unique within their server (pairwise distinct, usable as dict
keys), every tool descriptor built from a dict item of the `tools/list`
discovery response of a freshly started server appears verbatim — same
name, description and input schema — in `get_all_tools()`, tagged with the
owning server and the qualified name `server:tool`. -/
theorem claim_c5_discovered_tools_roundtrip (m : MCPServerManager)
    (sname : String) (cfg : MCPServerConfig) (entries : List Json)
    (kvs : List (String × Json))
    (hcfg : lookupStr m.server_configs sname = some cfg)
    (hen : cfg.enabled = true)
    (hnotrun : lookupStr m.servers sname = none)
    (hnames : distinctHashableNames (toolEntryNames entries) = true)
    (hmem : Json.obj kvs ∈ entries) :
    mkAggTool sname (mkTool kvs) ∈
      (m.start_server sname
        (ConnectEnv.responses (Json.arr entries) Json.null)).1.get_all_tools := by
  have hsnd : (loadToolsLoop [] entries).2 = false :=
    loadToolsLoop_no_raise entries [] hnames
  have hconn : (FastMCPClient.init sname
        (cfg.command ++ cfg.args)).connect
        (ConnectEnv.responses (Json.arr entries) Json.null) =
      ({ server_name := sname, server_command := cfg.command ++ cfg.args,
         client := some (), process := some (),
         tools := (loadToolsLoop [] entries).1, resources := [],
         connected := true }, true) := by
    simp [FastMCPClient.connect, FastMCPClient.init, loadToolsInto,
      toolsSource_arr, hsnd, loadResourcesInto, resourcesSource, pyTruthy,
      loadResourcesLoop]
  have hstart : (m.start_server sname
        (ConnectEnv.responses (Json.arr entries) Json.null)).1 =
      { m with servers := (insertStr m.servers sname
          { server_name := sname, server_command := cfg.command ++ cfg.args,
            client := some (), process := some (),
            tools := (loadToolsLoop [] entries).1, resources := [],
            connected := true }) } := by
    rw [MCPServerManager.start_server, startServerPhase1, hcfg]
    simp only [hen, hnotrun, Bool.not_true, Bool.false_eq_true, if_false,
      Option.isSome_none, hconn, startServerPhase2, if_true]
  rw [hstart, MCPServerManager.get_all_tools]
  refine List.mem_flatMap.mpr ⟨(sname, _), insertStr_self_mem _ _ _, ?_⟩
  refine List.mem_map_of_mem (mkAggTool sname) ?_
  have hpair := loadToolsLoop_mem entries [] kvs hnames
    (fun pd hpd => absurd hpd (List.not_mem_nil pd)) hmem
  simpa [FastMCPClient.get_available_tools] using
    List.mem_map_of_mem Prod.snd hpair

/-- Claim C5 witness: starting `filesystem` against a discovery response
with one `read` tool makes that descriptor appear in `get_all_tools()` as
`filesystem:read`. -/
theorem claim_c5_witness :
    distinctHashableNames (toolEntryNames
      [Json.obj [("name", Json.str "read"),
                 ("description", Json.str "Read a file"),
                 ("inputSchema", Json.obj [("type", Json.str "object")])]]) =
      true ∧
    mkAggTool "filesystem"
        (mkTool [("name", Json.str "read"),
                 ("description", Json.str "Read a file"),
                 ("inputSchema", Json.obj [("type", Json.str "object")])]) ∈
      (oneConfigManager.start_server "filesystem"
        (ConnectEnv.responses
          (Json.arr
            [Json.obj [("name", Json.str "read"),
                       ("description", Json.str "Read a file"),
                       ("inputSchema",
                        Json.obj [("type", Json.str "object")])]])
          Json.null)).1.get_all_tools :=
  ⟨by decide,
    claim_c5_discovered_tools_roundtrip oneConfigManager "filesystem"
      defaultFilesystemConfig
      [Json.obj [("name", Json.str "read"),
                 ("description", Json.str "Read a file"),
                 ("inputSchema", Json.obj [("type", Json.str "object")])]]
      [("name", Json.str "read"), ("description", Json.str "Read a file"),
       ("inputSchema", Json.obj [("type", Json.str "object")])]
      rfl rfl rfl (by decide) (by decide)⟩
